import Mathlib

/-!
Verification of the UnstructuredParser component
(airbyte_cdk/sources/file_based/file_types/unstructured_parser.py).

The parser detects the type of a remote file (via MIME type, file name, or
content sniffing, all delegated to the external `unstructured` library),
extracts document elements for PDF/DOCX/PPTX, decodes raw bytes for Markdown,
renders elements to a Markdown string, and exposes `infer_schema` and
`parse_records` with a `skip_unprocessable_files` failure policy.

The delegated boundary (the `unstructured` library: MIME table, file-type
detection by name or by content, the three partition functions, and
`optional_decode`) is modelled as a record of function parameters
(`UnstructuredLib`); the parser never inspects these functions beyond calling
them, so the embedding is faithful for any instantiation.  Streams are
modelled as a byte list plus a read position plus the optional `name`
attribute that `_get_filetype` mutates.  Exceptions are modelled with
`Except`.  The library-availability check in `_read_file` (which raises a
plain `Exception` when the `unstructured` import failed) is outside the
model: the library is a parameter and hence always available.
-/

/-- File types of the `unstructured` detection library that matter to the
parser: the four supported kinds, the UNK sentinel, and representative
unsupported kinds (CSV and TXT appear in the repository unit tests). -/
inductive FileType where
  | MD
  | PDF
  | DOCX
  | PPTX
  | CSV
  | TXT
  | UNK
  deriving DecidableEq

/-- Python `str` rendering of a `FileType` enum member. -/
def fileTypeStr : FileType → String
  | FileType.MD => "FileType.MD"
  | FileType.PDF => "FileType.PDF"
  | FileType.DOCX => "FileType.DOCX"
  | FileType.PPTX => "FileType.PPTX"
  | FileType.CSV => "FileType.CSV"
  | FileType.TXT => "FileType.TXT"
  | FileType.UNK => "FileType.UNK"

/-- Python `str` rendering of an `Optional[FileType]` (`str(None) = "None"`). -/
def optFileTypeStr : Option FileType → String
  | none => "None"
  | some t => fileTypeStr t

/-- RemoteFile descriptor: URI plus optional MIME type (the last-modified
timestamp is never consulted by the parser and is omitted). -/
structure RemoteFile where
  uri : String
  mimeType : Option String
  deriving DecidableEq

/-- An open binary stream: full byte content, current read position, and the
`name` attribute (`hasName` says whether the attribute exists at all;
`nameVal` is its value when it does). -/
structure FileStream where
  content : List Nat
  pos : Nat
  hasName : Bool
  nameVal : Option String
  deriving DecidableEq

/-- UnstructuredFormat configuration: the `skip_unprocessable_files` flag. -/
structure UnstructuredFormat where
  skipUnprocessableFiles : Bool
  deriving DecidableEq

/-- RecordParseError payload: the file URI and the human-readable message
(`RecordParseError(FileBasedSourceError.ERROR_PARSING_RECORD, filename=...,
message=...)`). -/
structure RecordParseError where
  filename : String
  message : String
  deriving DecidableEq

/-- A document element produced by the extraction library: Title with an
optional nesting depth (`metadata.category_depth`), ListItem, Formula, or any
other element, which may or may not expose a `text` attribute. -/
inductive DocumentElement where
  | title (depth : Option Nat) (text : String)
  | listItem (text : String)
  | formula (text : String)
  | other (text : Option String)
  deriving DecidableEq

/-- One record yielded by `parse_records` (field
`_ab_source_file_parse_error` is shortened to `parse_error`). -/
structure OutputRecord where
  content : Option String
  document_key : String
  parse_error : Option String
  deriving DecidableEq

/-- One field of the discovery schema: JSON property name, type, description. -/
structure SchemaField where
  name : String
  type : String
  description : String
  deriving DecidableEq

/-- The delegated boundary: the relevant entry points of the external
`unstructured` library, as opaque-to-the-parser function parameters.
`strToFiletype` is membership+lookup in `STR_TO_FILETYPE`; `detectByName` and
`detectByContent` are the two calling modes of `detect_filetype`; the three
partition functions return either the element list or the raised exception
message; `optionalDecode` decodes raw bytes to text. -/
structure UnstructuredLib where
  strToFiletype : String → Option FileType
  detectByName : String → Option FileType
  detectByContent : List Nat → Option FileType
  partitionPdf : List Nat → Except String (List DocumentElement)
  partitionDocx : List Nat → Except String (List DocumentElement)
  partitionPptx : List Nat → Except String (List DocumentElement)
  optionalDecode : List Nat → String

/-- Python `"#" * n`. -/
def hashes (n : Nat) : String := String.mk (List.replicate n '#')

/-- `_convert_to_markdown`: `isinstance` dispatch on the element variant.
`el.metadata.category_depth or 1` under Python truthiness maps both `None`
and `0` to `1`. -/
def _convert_to_markdown : DocumentElement → String
  | DocumentElement.title depth text =>
      let heading_str := hashes (match depth with
        | some (Nat.succ n) => Nat.succ n
        | _ => 1)
      heading_str ++ " " ++ text
  | DocumentElement.listItem text => "- " ++ text
  | DocumentElement.formula text => "```\n" ++ text ++ "\n```"
  | DocumentElement.other (some text) => text
  | DocumentElement.other none => ""

/-- `_render_markdown`: join the per-element renderings with a blank line. -/
def _render_markdown (elements : List DocumentElement) : String :=
  String.intercalate "\n\n" (elements.map _convert_to_markdown)

/-- `_supported_file_types`. -/
def _supported_file_types : List FileType :=
  [FileType.MD, FileType.PDF, FileType.DOCX, FileType.PPTX]

/-- Python `filetype in self._supported_file_types()` for an
`Optional[FileType]` (`None` is never in the list). -/
def isSupported : Option FileType → Bool
  | some t => _supported_file_types.contains t
  | none => false

/-- `_get_file_type_error_message`. -/
def _get_file_type_error_message (file_type : Option FileType) : String :=
  "File type " ++ optFileTypeStr file_type ++
    " is not supported. Supported file types are " ++
    String.intercalate ", " (_supported_file_types.map fileTypeStr)

/-- `_create_parse_error`. -/
def _create_parse_error (remote_file : RemoteFile) (message : String) : RecordParseError :=
  { filename := remote_file.uri, message := message }

/-- Modelled from the spec: the string rendering of a raised
`RecordParseError` (the exceptions module of the framework is not under
src/); per the spec it is a single structured error carrying filename and
message, and the repository unit tests pin this exact rendering. -/
def recordParseErrorStr (e : RecordParseError) : String :=
  "Error parsing record. This could be due to a mismatch between the config\x27s file type and the actual file type, or because the file or record is not parseable. Contact Support if you need assistance.\nfilename=" ++
    e.filename ++ " message=" ++ e.message

/-- The guarded mutation `if hasattr(file, "name"): file.name = None`
performed by `_get_filetype` before delegated detection. -/
def setNameNone (file : FileStream) : FileStream :=
  if file.hasName then { file with nameVal := none } else file

/-- Python truthiness test `remote_file.mime_type and remote_file.mime_type
in STR_TO_FILETYPE` followed by the lookup (an empty string is falsy). -/
def mimeLookup (lib : UnstructuredLib) (mime_type : Option String) : Option FileType :=
  match mime_type with
  | none => none
  | some m => if m = "" then none else lib.strToFiletype m

/-- `_get_filetype`: resolution by MIME type, then file name, then content
sniffing.  Returns the detected type together with the stream as the caller
sees it afterwards (content sniffing reads the stream and then seeks back to
position 0). -/
def _get_filetype (lib : UnstructuredLib) (file : FileStream) (remote_file : RemoteFile) :
    Option FileType × FileStream :=
  match mimeLookup lib remote_file.mimeType with
  | some ft => (some ft, file)
  | none =>
    let file1 := setNameNone file
    match lib.detectByName remote_file.uri with
    | some file_type =>
      if file_type = FileType.UNK then
        (lib.detectByContent file1.content, { file1 with pos := 0 })
      else
        (some file_type, file1)
    | none => (lib.detectByContent file1.content, { file1 with pos := 0 })

/-- Outcome of the `try`-wrapped partition call: render the elements on
success, wrap the exception message into a `RecordParseError` on failure. -/
def wrapPartition (remote_file : RemoteFile) (r : Except String (List DocumentElement)) :
    Except RecordParseError String :=
  match r with
  | Except.ok elements => Except.ok (_render_markdown elements)
  | Except.error e => Except.error (_create_parse_error remote_file e)

/-- The partition entry point `_read_file` dispatches to for each supported
binary file type (the `if/elif/elif` chain after the Markdown branch). -/
def partitionFor (lib : UnstructuredLib) (ft : FileType) :
    List Nat → Except String (List DocumentElement) :=
  match ft with
  | FileType.PDF => lib.partitionPdf
  | FileType.DOCX => lib.partitionDocx
  | _ => lib.partitionPptx

/-- `_read_file`: detect the type; for Markdown decode the bytes read from
the current position; for an unsupported type raise the unsupported-type
parse error; otherwise read the whole content from position 0 and dispatch
to the matching partition function, wrapping any exception. -/
def _read_file (lib : UnstructuredLib) (file_handle : FileStream) (remote_file : RemoteFile) :
    Except RecordParseError String :=
  let r := _get_filetype lib file_handle remote_file
  let filetype := r.fst
  let fh := r.snd
  if filetype = some FileType.MD then
    Except.ok (lib.optionalDecode (fh.content.drop fh.pos))
  else if isSupported filetype = false then
    Except.error (_create_parse_error remote_file (_get_file_type_error_message filetype))
  else if filetype = some FileType.PDF then
    wrapPartition remote_file (lib.partitionPdf fh.content)
  else if filetype = some FileType.DOCX then
    wrapPartition remote_file (lib.partitionDocx fh.content)
  else
    wrapPartition remote_file (lib.partitionPptx fh.content)

/-- `parse_records`: yield the successful record, or on a `RecordParseError`
either yield the degraded record (skipping enabled) or re-raise. -/
def parse_records (lib : UnstructuredLib) (format : UnstructuredFormat)
    (file_handle : FileStream) (file : RemoteFile) :
    Except RecordParseError (List OutputRecord) :=
  match _read_file lib file_handle file with
  | Except.ok markdown =>
      Except.ok [{ content := some markdown, document_key := file.uri, parse_error := none }]
  | Except.error e =>
      if format.skipUnprocessableFiles then
        Except.ok [{ content := none, document_key := file.uri,
                     parse_error := some (recordParseErrorStr e) }]
      else
        Except.error e

/-- The fixed three-field schema returned by `infer_schema`. -/
def staticSchema : List SchemaField :=
  [ { name := "content", type := "string",
      description := "Content of the file as markdown. Might be null if the file could not be parsed" },
    { name := "document_key", type := "string",
      description := "Unique identifier of the document, e.g. the file path" },
    { name := "_ab_source_file_parse_error", type := "string",
      description := "Error message if the file could not be parsed even though the file is supported" } ]

/-- `infer_schema` (async in the source, with no suspension points): raise
the unsupported-type error when the detected type is unsupported and
skipping is disabled, otherwise return the fixed schema. -/
def infer_schema (lib : UnstructuredLib) (format : UnstructuredFormat)
    (file_handle : FileStream) (file : RemoteFile) :
    Except RecordParseError (List SchemaField) :=
  let filetype := (_get_filetype lib file_handle file).fst
  if isSupported filetype = false ∧ format.skipUnprocessableFiles = false then
    Except.error (_create_parse_error file (_get_file_type_error_message filetype))
  else
    Except.ok staticSchema

/-! ### Basic lemmas about the detection state -/

theorem setNameNone_content (f : FileStream) : (setNameNone f).content = f.content := by
  unfold setNameNone; split <;> rfl

theorem setNameNone_pos (f : FileStream) : (setNameNone f).pos = f.pos := by
  unfold setNameNone; split <;> rfl

theorem setNameNone_hasName (f : FileStream) : (setNameNone f).hasName = f.hasName := by
  unfold setNameNone; split <;> rfl

theorem setNameNone_nameVal (f : FileStream) :
    (setNameNone f).nameVal = if f.hasName then none else f.nameVal := by
  unfold setNameNone
  by_cases h : f.hasName
  · rw [if_pos h, if_pos h]
  · rw [if_neg h, if_neg h]

theorem getFiletype_mime (lib : UnstructuredLib) (fh : FileStream) (rf : RemoteFile)
    (ft : FileType) (h : mimeLookup lib rf.mimeType = some ft) :
    _get_filetype lib fh rf = (some ft, fh) := by
  unfold _get_filetype
  rw [h]

theorem getFiletype_byName (lib : UnstructuredLib) (fh : FileStream) (rf : RemoteFile)
    (ft : FileType) (h1 : mimeLookup lib rf.mimeType = none)
    (h2 : lib.detectByName rf.uri = some ft) (h3 : ft ≠ FileType.UNK) :
    _get_filetype lib fh rf = (some ft, setNameNone fh) := by
  simp only [_get_filetype, h1, h2]
  rw [if_neg h3]

theorem getFiletype_sniff (lib : UnstructuredLib) (fh : FileStream) (rf : RemoteFile)
    (h1 : mimeLookup lib rf.mimeType = none)
    (h2 : lib.detectByName rf.uri = none ∨ lib.detectByName rf.uri = some FileType.UNK) :
    _get_filetype lib fh rf =
      (lib.detectByContent fh.content, { setNameNone fh with pos := 0 }) := by
  rcases h2 with h2 | h2 <;> simp only [_get_filetype, h1, h2, setNameNone_content, if_pos]

theorem getFiletype_snd_content (lib : UnstructuredLib) (fh : FileStream) (rf : RemoteFile) :
    ((_get_filetype lib fh rf).snd).content = fh.content := by
  rcases hm : mimeLookup lib rf.mimeType with _ | ft
  · rcases hn : lib.detectByName rf.uri with _ | ft2
    · rw [getFiletype_sniff lib fh rf hm (Or.inl hn)]
      exact setNameNone_content fh
    · by_cases hu : ft2 = FileType.UNK
      · subst hu
        rw [getFiletype_sniff lib fh rf hm (Or.inr hn)]
        exact setNameNone_content fh
      · rw [getFiletype_byName lib fh rf ft2 hm hn hu]
        exact setNameNone_content fh
  · rw [getFiletype_mime lib fh rf ft hm]

theorem getFiletype_snd_hasName (lib : UnstructuredLib) (fh : FileStream) (rf : RemoteFile) :
    ((_get_filetype lib fh rf).snd).hasName = fh.hasName := by
  rcases hm : mimeLookup lib rf.mimeType with _ | ft
  · rcases hn : lib.detectByName rf.uri with _ | ft2
    · rw [getFiletype_sniff lib fh rf hm (Or.inl hn)]
      exact setNameNone_hasName fh
    · by_cases hu : ft2 = FileType.UNK
      · subst hu
        rw [getFiletype_sniff lib fh rf hm (Or.inr hn)]
        exact setNameNone_hasName fh
      · rw [getFiletype_byName lib fh rf ft2 hm hn hu]
        exact setNameNone_hasName fh
  · rw [getFiletype_mime lib fh rf ft hm]

theorem getFiletype_snd_pos (lib : UnstructuredLib) (fh : FileStream) (rf : RemoteFile) :
    ((_get_filetype lib fh rf).snd).pos = fh.pos ∨ ((_get_filetype lib fh rf).snd).pos = 0 := by
  rcases hm : mimeLookup lib rf.mimeType with _ | ft
  · rcases hn : lib.detectByName rf.uri with _ | ft2
    · rw [getFiletype_sniff lib fh rf hm (Or.inl hn)]
      exact Or.inr rfl
    · by_cases hu : ft2 = FileType.UNK
      · subst hu
        rw [getFiletype_sniff lib fh rf hm (Or.inr hn)]
        exact Or.inr rfl
      · rw [getFiletype_byName lib fh rf ft2 hm hn hu]
        exact Or.inl (setNameNone_pos fh)
  · rw [getFiletype_mime lib fh rf ft hm]
    exact Or.inl rfl

/-! ### Markdown rendering: the claim-side renderers -/

/-- Spec-side per-element rendering, following the claim verbatim: a Title
renders one # per unit of its nesting depth and a single # only when the
depth is absent; ListItem, Formula and generic elements as in the claim. -/
def claimConvertToMarkdown : DocumentElement → String
  | DocumentElement.title depth text => hashes (depth.getD 1) ++ " " ++ text
  | DocumentElement.listItem text => "- " ++ text
  | DocumentElement.formula text => "```\n" ++ text ++ "\n```"
  | DocumentElement.other (some text) => text
  | DocumentElement.other none => ""

/-- Spec-side renderer, following the claim verbatim. -/
def claimRenderMarkdown (elements : List DocumentElement) : String :=
  String.intercalate "\n\n" (elements.map claimConvertToMarkdown)

/-- Amended spec-side per-element rendering: a single # when the depth is
absent or zero, one # per unit of depth otherwise. -/
def claimConvertToMarkdownAmended : DocumentElement → String
  | DocumentElement.title depth text =>
      hashes (match depth with
        | some (Nat.succ n) => Nat.succ n
        | _ => 1) ++ " " ++ text
  | DocumentElement.listItem text => "- " ++ text
  | DocumentElement.formula text => "```\n" ++ text ++ "\n```"
  | DocumentElement.other (some text) => text
  | DocumentElement.other none => ""

/-- Amended spec-side renderer. -/
def claimRenderMarkdownAmended (elements : List DocumentElement) : String :=
  String.intercalate "\n\n" (elements.map claimConvertToMarkdownAmended)

theorem convert_eq_amended : _convert_to_markdown = claimConvertToMarkdownAmended := by
  funext el
  cases el with
  | title depth text =>
    cases depth with
    | none => rfl
    | some n => cases n with
      | zero => rfl
      | succ m => rfl
  | listItem text => rfl
  | formula text => rfl
  | other text => cases text <;> rfl

/-- C1 counterexample: a Title with explicit nesting depth 0 renders with a
single # (Python `or` treats the depth 0 as falsy), not with zero # as the
per-unit rule of the claim demands. -/
theorem C1_counterexample :
    _render_markdown [DocumentElement.title (some 0) ("t")] ≠
      claimRenderMarkdown [DocumentElement.title (some 0) ("t")] := by
  decide

/-- C1 (amended: a Title with a zero depth also renders with a single #, as
when the depth is absent): the renderer joins per-element renderings with a
blank line, Titles render one # per unit of positive depth and a single #
when the depth is absent or zero, ListItems render as a dash bullet,
Formulas as a fenced code block, other elements as their text or the empty
string; the four-element example and explicit depths 1 and 2 render as
stated. -/
theorem C1_render_markdown :
    (∀ elements : List DocumentElement,
        _render_markdown elements = claimRenderMarkdownAmended elements) ∧
    _render_markdown
        [DocumentElement.title none ("heading"), DocumentElement.other (some ("x")),
         DocumentElement.listItem ("y"), DocumentElement.formula ("z")] =
      "# heading\n\nx\n\n- y\n\n```\nz\n```" ∧
    _convert_to_markdown (DocumentElement.title (some 1) ("heading")) = "# heading" ∧
    _convert_to_markdown (DocumentElement.title (some 2) ("heading")) = "## heading" := by
  refine ⟨fun elements => ?_, rfl, rfl, rfl⟩
  unfold _render_markdown claimRenderMarkdownAmended
  rw [convert_eq_amended]

/-! ### Dispatch lemmas for `_read_file` -/

theorem isSupported_false_ne_md (ft : Option FileType) (h : isSupported ft = false) :
    ft ≠ some FileType.MD := by
  intro hc
  rw [hc] at h
  simp [isSupported, _supported_file_types] at h

theorem read_file_eq_md (lib : UnstructuredLib) (fh : FileStream) (rf : RemoteFile)
    (h : (_get_filetype lib fh rf).fst = some FileType.MD) :
    _read_file lib fh rf =
      Except.ok (lib.optionalDecode
        (((_get_filetype lib fh rf).snd).content.drop ((_get_filetype lib fh rf).snd).pos)) := by
  simp only [_read_file]
  rw [h, if_pos rfl]

theorem read_file_eq_unsupported (lib : UnstructuredLib) (fh : FileStream) (rf : RemoteFile)
    (h : isSupported ((_get_filetype lib fh rf).fst) = false) :
    _read_file lib fh rf =
      Except.error { filename := rf.uri,
                     message := _get_file_type_error_message ((_get_filetype lib fh rf).fst) } := by
  simp only [_read_file]
  rw [if_neg (isSupported_false_ne_md _ h), if_pos h]
  rfl

theorem read_file_eq_partition (lib : UnstructuredLib) (fh : FileStream) (rf : RemoteFile)
    (ft : FileType) (h : (_get_filetype lib fh rf).fst = some ft)
    (hbin : ft = FileType.PDF ∨ ft = FileType.DOCX ∨ ft = FileType.PPTX) :
    _read_file lib fh rf =
      wrapPartition rf (partitionFor lib ft (((_get_filetype lib fh rf).snd).content)) := by
  rcases hbin with h1 | h1 | h1 <;> subst h1 <;> simp only [_read_file, partitionFor] <;>
    rw [h] <;> simp [isSupported, _supported_file_types]

/-! ### `parse_records` dispatch lemmas -/

theorem parse_records_ok (lib : UnstructuredLib) (format : UnstructuredFormat)
    (fh : FileStream) (rf : RemoteFile) (markdown : String)
    (h : _read_file lib fh rf = Except.ok markdown) :
    parse_records lib format fh rf =
      Except.ok [{ content := some markdown, document_key := rf.uri, parse_error := none }] := by
  simp only [parse_records, h]

theorem parse_records_error_skip (lib : UnstructuredLib) (format : UnstructuredFormat)
    (fh : FileStream) (rf : RemoteFile) (e : RecordParseError)
    (h : _read_file lib fh rf = Except.error e)
    (hskip : format.skipUnprocessableFiles = true) :
    parse_records lib format fh rf =
      Except.ok [{ content := none, document_key := rf.uri,
                   parse_error := some (recordParseErrorStr e) }] := by
  simp only [parse_records, h, hskip, if_true]

theorem parse_records_error_noskip (lib : UnstructuredLib) (format : UnstructuredFormat)
    (fh : FileStream) (rf : RemoteFile) (e : RecordParseError)
    (h : _read_file lib fh rf = Except.error e)
    (hskip : format.skipUnprocessableFiles = false) :
    parse_records lib format fh rf = Except.error e := by
  simp only [parse_records, h, hskip]
  rfl

/-! ### Witness fixtures: concrete library instantiations and inputs -/

/-- Fixture: a PDF byte stream with a `name` attribute, at position 0. -/
def fhW : FileStream :=
  { content := [37, 80, 68, 70], pos := 0, hasName := true, nameVal := some ("doc.pdf") }

/-- Fixture: a stream without a `name` attribute, at position 0. -/
def fhPlainW : FileStream :=
  { content := [104, 105], pos := 0, hasName := false, nameVal := none }

/-- Fixture: a stream with a `name` attribute, at position 0. -/
def fhNameW : FileStream :=
  { content := [1, 2], pos := 0, hasName := true, nameVal := some ("orig") }

/-- Fixture: remote file with a recognised explicit MIME type. -/
def rfMimeW : RemoteFile := { uri := ("a/b.pdf"), mimeType := some ("application/pdf") }

/-- Fixture: remote file with no MIME type. -/
def rfPlainW : RemoteFile := { uri := ("path/to/file.xyz"), mimeType := none }

/-- Fixture: library whose MIME table recognises PDF and whose PDF partition
raises an exception. -/
def libPdfFailW : UnstructuredLib :=
  { strToFiletype := fun s => if s = "application/pdf" then some FileType.PDF else none,
    detectByName := fun _ => none,
    detectByContent := fun _ => none,
    partitionPdf := fun _ => Except.error ("boom"),
    partitionDocx := fun _ => Except.ok [],
    partitionPptx := fun _ => Except.ok [],
    optionalDecode := fun _ => ("") }

/-- Fixture: library whose name-based detection reports CSV (unsupported). -/
def libCsvW : UnstructuredLib :=
  { strToFiletype := fun _ => none,
    detectByName := fun _ => some FileType.CSV,
    detectByContent := fun _ => none,
    partitionPdf := fun _ => Except.ok [],
    partitionDocx := fun _ => Except.ok [],
    partitionPptx := fun _ => Except.ok [],
    optionalDecode := fun _ => ("") }

/-- Fixture: library whose name-based detection reports Markdown and whose
decode function returns a fixed string. -/
def libMdW : UnstructuredLib :=
  { strToFiletype := fun _ => none,
    detectByName := fun _ => some FileType.MD,
    detectByContent := fun _ => none,
    partitionPdf := fun _ => Except.ok [],
    partitionDocx := fun _ => Except.ok [],
    partitionPptx := fun _ => Except.ok [],
    optionalDecode := fun _ => ("hello") }

/-- Fixture: the record yielded for the Markdown fixture file. -/
def mdRecordW : OutputRecord :=
  { content := some ("hello"), document_key := ("path/to/file.xyz"), parse_error := none }

/-! ### Claim theorems -/

/-- C2: for a file of a supported binary type (PDF, DOCX or PPTX), a failing
delegated extraction call is wrapped into a structured parse error carrying
the file URI and the original exception message; with skipping enabled,
parse_records yields exactly one record with null content and an error
string containing the original message, and no error escapes; with skipping
disabled, the error propagates out of parse_records. -/
theorem C2_extraction_error (lib : UnstructuredLib) (format : UnstructuredFormat)
    (fh : FileStream) (rf : RemoteFile) (ft : FileType) (msg : String)
    (hft : (_get_filetype lib fh rf).fst = some ft)
    (hbin : ft = FileType.PDF ∨ ft = FileType.DOCX ∨ ft = FileType.PPTX)
    (hfail : partitionFor lib ft (((_get_filetype lib fh rf).snd).content) = Except.error msg) :
    _read_file lib fh rf = Except.error { filename := rf.uri, message := msg } ∧
    (format.skipUnprocessableFiles = true →
      parse_records lib format fh rf =
        Except.ok [{ content := none, document_key := rf.uri,
                     parse_error := some (recordParseErrorStr
                       { filename := rf.uri, message := msg }) }] ∧
      (∃ pre post,
          recordParseErrorStr { filename := rf.uri, message := msg } = pre ++ msg ++ post)) ∧
    (format.skipUnprocessableFiles = false →
      parse_records lib format fh rf = Except.error { filename := rf.uri, message := msg }) := by
  have hread : _read_file lib fh rf = Except.error { filename := rf.uri, message := msg } := by
    rw [read_file_eq_partition lib fh rf ft hft hbin, hfail]
    rfl
  refine ⟨hread, fun hskip => ⟨parse_records_error_skip lib format fh rf _ hread hskip, ?_⟩,
    fun hskip => parse_records_error_noskip lib format fh rf _ hread hskip⟩
  refine ⟨"Error parsing record. This could be due to a mismatch between the config\x27s file type and the actual file type, or because the file or record is not parseable. Contact Support if you need assistance.\nfilename=" ++
    rf.uri ++ " message=", "", ?_⟩
  rw [String.append_empty]
  rfl

/-- C2 witness: the PDF-failure fixture propagates the wrapped error. -/
theorem C2_witness :
    _read_file libPdfFailW fhW rfMimeW =
      Except.error { filename := ("a/b.pdf"), message := ("boom") } :=
  (C2_extraction_error libPdfFailW { skipUnprocessableFiles := true } fhW rfMimeW
    FileType.PDF ("boom") rfl (Or.inl rfl) rfl).1

theorem supportedTypesStr :
    String.intercalate ", " (_supported_file_types.map fileTypeStr) =
      "FileType.MD, FileType.PDF, FileType.DOCX, FileType.PPTX" := rfl

/-- C3: for a file whose detected type is unsupported and with skipping
enabled, parse_records yields exactly one record with null content and a
non-null error string that names the unsupported type and the supported
types, and no error escapes. -/
theorem C3_unsupported_skipped (lib : UnstructuredLib) (format : UnstructuredFormat)
    (fh : FileStream) (rf : RemoteFile)
    (hunsup : isSupported ((_get_filetype lib fh rf).fst) = false)
    (hskip : format.skipUnprocessableFiles = true) :
    parse_records lib format fh rf =
      Except.ok [{ content := none, document_key := rf.uri,
                   parse_error := some (recordParseErrorStr
                     { filename := rf.uri,
                       message := _get_file_type_error_message ((_get_filetype lib fh rf).fst) }) }] ∧
    (∃ pre mid post,
        recordParseErrorStr
            { filename := rf.uri,
              message := _get_file_type_error_message ((_get_filetype lib fh rf).fst) } =
          pre ++ optFileTypeStr ((_get_filetype lib fh rf).fst) ++ mid ++
            "FileType.MD, FileType.PDF, FileType.DOCX, FileType.PPTX" ++ post) := by
  constructor
  · exact parse_records_error_skip lib format fh rf _ (read_file_eq_unsupported lib fh rf hunsup) hskip
  · refine ⟨"Error parsing record. This could be due to a mismatch between the config\x27s file type and the actual file type, or because the file or record is not parseable. Contact Support if you need assistance.\nfilename=" ++
      rf.uri ++ " message=" ++ "File type ",
      " is not supported. Supported file types are ", "", ?_⟩
    simp only [recordParseErrorStr, _get_file_type_error_message, supportedTypesStr,
      String.append_empty, String.append_assoc]

/-- C3 witness: the CSV fixture with skipping enabled yields the degraded
record. -/
theorem C3_witness :
    parse_records libCsvW { skipUnprocessableFiles := true } fhPlainW rfPlainW =
      Except.ok [{ content := none, document_key := ("path/to/file.xyz"),
                   parse_error := some (recordParseErrorStr
                     { filename := ("path/to/file.xyz"),
                       message := _get_file_type_error_message
                         ((_get_filetype libCsvW fhPlainW rfPlainW).fst) }) }] :=
  (C3_unsupported_skipped libCsvW { skipUnprocessableFiles := true } fhPlainW rfPlainW rfl rfl).1

/-- C4: for a file whose detected type is unsupported and with skipping
disabled, infer_schema and parse_records both raise the unsupported-type
parse error. -/
theorem C4_unsupported_raises (lib : UnstructuredLib) (format : UnstructuredFormat)
    (fh : FileStream) (rf : RemoteFile)
    (hunsup : isSupported ((_get_filetype lib fh rf).fst) = false)
    (hskip : format.skipUnprocessableFiles = false) :
    infer_schema lib format fh rf =
      Except.error { filename := rf.uri,
                     message := _get_file_type_error_message ((_get_filetype lib fh rf).fst) } ∧
    parse_records lib format fh rf =
      Except.error { filename := rf.uri,
                     message := _get_file_type_error_message ((_get_filetype lib fh rf).fst) } := by
  constructor
  · simp only [infer_schema]
    rw [if_pos ⟨hunsup, hskip⟩]
    rfl
  · exact parse_records_error_noskip lib format fh rf _
      (read_file_eq_unsupported lib fh rf hunsup) hskip

/-- C4 witness: the CSV fixture with skipping disabled raises from schema
inference. -/
theorem C4_witness :
    infer_schema libCsvW { skipUnprocessableFiles := false } fhPlainW rfPlainW =
      Except.error { filename := ("path/to/file.xyz"),
                     message := _get_file_type_error_message
                       ((_get_filetype libCsvW fhPlainW rfPlainW).fst) } :=
  (C4_unsupported_raises libCsvW { skipUnprocessableFiles := false } fhPlainW rfPlainW rfl rfl).1

/-- C5: for a file whose detected type is Markdown, parse_records yields
exactly one record whose content is the decoded byte content of the file and
whose parse-error field is null. -/
theorem C5_markdown (lib : UnstructuredLib) (format : UnstructuredFormat)
    (fh : FileStream) (rf : RemoteFile)
    (hpos : fh.pos = 0)
    (hmd : (_get_filetype lib fh rf).fst = some FileType.MD) :
    parse_records lib format fh rf =
      Except.ok [{ content := some (lib.optionalDecode fh.content),
                   document_key := rf.uri, parse_error := none }] := by
  have hread := read_file_eq_md lib fh rf hmd
  rw [getFiletype_snd_content lib fh rf] at hread
  have hp : ((_get_filetype lib fh rf).snd).pos = 0 := by
    rcases getFiletype_snd_pos lib fh rf with h | h
    · rw [h, hpos]
    · exact h
  rw [hp, List.drop_zero] at hread
  exact parse_records_ok lib format fh rf _ hread

/-- C5 witness: the Markdown fixture yields the decoded content. -/
theorem C5_witness :
    parse_records libMdW { skipUnprocessableFiles := false } fhPlainW rfPlainW =
      Except.ok [{ content := some (libMdW.optionalDecode fhPlainW.content),
                   document_key := ("path/to/file.xyz"), parse_error := none }] :=
  C5_markdown libMdW { skipUnprocessableFiles := false } fhPlainW rfPlainW rfl rfl

/-- C6: type detection resolves in order: a recognised explicit MIME type
wins (the stream is untouched and the name is not consulted); otherwise a
known name-based detection wins (the stream content is not read: position
and content are unchanged); otherwise the type is the content-sniffing
result on the stream content. -/
theorem C6_resolution_order (lib : UnstructuredLib) (fh : FileStream) (rf : RemoteFile) :
    (∀ ft, mimeLookup lib rf.mimeType = some ft →
        _get_filetype lib fh rf = (some ft, fh)) ∧
    (∀ ft, mimeLookup lib rf.mimeType = none →
        lib.detectByName rf.uri = some ft → ft ≠ FileType.UNK →
        (_get_filetype lib fh rf).fst = some ft ∧
        ((_get_filetype lib fh rf).snd).pos = fh.pos ∧
        ((_get_filetype lib fh rf).snd).content = fh.content) ∧
    (mimeLookup lib rf.mimeType = none →
        (lib.detectByName rf.uri = none ∨ lib.detectByName rf.uri = some FileType.UNK) →
        (_get_filetype lib fh rf).fst = lib.detectByContent fh.content) := by
  refine ⟨fun ft h => getFiletype_mime lib fh rf ft h, fun ft h1 h2 h3 => ?_, fun h1 h2 => ?_⟩
  · rw [getFiletype_byName lib fh rf ft h1 h2 h3]
    exact ⟨rfl, setNameNone_pos fh, setNameNone_content fh⟩
  · rw [getFiletype_sniff lib fh rf h1 h2]

/-- C6 witness: the recognised MIME type of the PDF fixture wins and the
stream is returned untouched. -/
theorem C6_witness :
    _get_filetype libPdfFailW fhW rfMimeW = (some FileType.PDF, fhW) :=
  (C6_resolution_order libPdfFailW fhW rfMimeW).1 FileType.PDF rfl

/-- C7 counterexample: for a stream exposing a name attribute, name-based
detection sets that attribute to None, so after detection the stream is not
equal to the input stream with its position restored to the start — an
observable attribute other than the position was modified. -/
theorem C7_counterexample :
    (_get_filetype libCsvW fhNameW rfPlainW).snd ≠ { fhNameW with pos := 0 } := by
  decide

/-- C7 (amended: detection leaves content and the presence of the name
attribute unchanged and restores the position to the start provided the
stream starts at the start; the MIME-based path returns the stream fully
unchanged; in the name-based and content-sniffing paths the name attribute,
when present, is set to None before delegated detection). -/
theorem C7_detection_effects (lib : UnstructuredLib) (fh : FileStream) (rf : RemoteFile) :
    ((_get_filetype lib fh rf).snd).content = fh.content ∧
    ((_get_filetype lib fh rf).snd).hasName = fh.hasName ∧
    (fh.pos = 0 → ((_get_filetype lib fh rf).snd).pos = 0) ∧
    (∀ ft, mimeLookup lib rf.mimeType = some ft → (_get_filetype lib fh rf).snd = fh) ∧
    (mimeLookup lib rf.mimeType = none →
      ((_get_filetype lib fh rf).snd).nameVal = if fh.hasName then none else fh.nameVal) := by
  refine ⟨getFiletype_snd_content lib fh rf, getFiletype_snd_hasName lib fh rf,
    fun h0 => ?_, fun ft h => by rw [getFiletype_mime lib fh rf ft h], fun h1 => ?_⟩
  · rcases getFiletype_snd_pos lib fh rf with h | h
    · rw [h, h0]
    · exact h
  · rcases hn : lib.detectByName rf.uri with _ | ft2
    · rw [getFiletype_sniff lib fh rf h1 (Or.inl hn)]
      exact setNameNone_nameVal fh
    · by_cases hu : ft2 = FileType.UNK
      · subst hu
        rw [getFiletype_sniff lib fh rf h1 (Or.inr hn)]
        exact setNameNone_nameVal fh
      · rw [getFiletype_byName lib fh rf ft2 h1 hn hu]
        exact setNameNone_nameVal fh

/-- C7 witness: on the named-stream fixture the name attribute is cleared. -/
theorem C7_witness :
    ((_get_filetype libCsvW fhNameW rfPlainW).snd).nameVal = none := by
  have h := (C7_detection_effects libCsvW fhNameW rfPlainW).2.2.2.2 rfl
  simpa [fhNameW] using h

/-- C8: whenever infer_schema returns, it returns the fixed three-field
schema (content, document_key, parse-error, all strings), independent of the
file; and it does return whenever the detected type is supported or skipping
is enabled. -/
theorem C8_schema_static (lib : UnstructuredLib) (format : UnstructuredFormat)
    (fh : FileStream) (rf : RemoteFile) :
    (∀ s, infer_schema lib format fh rf = Except.ok s → s = staticSchema) ∧
    (isSupported ((_get_filetype lib fh rf).fst) = true ∨ format.skipUnprocessableFiles = true →
      infer_schema lib format fh rf = Except.ok staticSchema) := by
  constructor
  · intro s h
    by_cases hc : isSupported ((_get_filetype lib fh rf).fst) = false ∧
        format.skipUnprocessableFiles = false
    · simp only [infer_schema] at h
      rw [if_pos hc] at h
      cases h
    · simp only [infer_schema] at h
      rw [if_neg hc] at h
      injection h with h
      exact h.symm
  · intro hor
    have hc : ¬(isSupported ((_get_filetype lib fh rf).fst) = false ∧
        format.skipUnprocessableFiles = false) := by
      rintro ⟨h1, h2⟩
      rcases hor with h | h
      · rw [h] at h1
        cases h1
      · rw [h] at h2
        cases h2
    simp only [infer_schema]
    rw [if_neg hc]

/-- C8 witness: unsupported type but skipping enabled still yields the fixed
schema. -/
theorem C8_witness :
    infer_schema libCsvW { skipUnprocessableFiles := true } fhPlainW rfPlainW =
      Except.ok staticSchema :=
  (C8_schema_static libCsvW { skipUnprocessableFiles := true } fhPlainW rfPlainW).2 (Or.inr rfl)

/-- C9: every record parse_records yields has exactly one of content and
parse-error non-null: a successful parse gives a string content with a null
error, a degraded record gives null content with a string error. -/
theorem C9_content_error_exclusive (lib : UnstructuredLib) (format : UnstructuredFormat)
    (fh : FileStream) (rf : RemoteFile) (records : List OutputRecord) (r : OutputRecord)
    (h : parse_records lib format fh rf = Except.ok records) (hr : r ∈ records) :
    (∃ s, r.content = some s ∧ r.parse_error = none) ∨
    (r.content = none ∧ ∃ s, r.parse_error = some s) := by
  cases hread : _read_file lib fh rf with
  | ok markdown =>
    rw [parse_records_ok lib format fh rf markdown hread] at h
    injection h with h
    subst h
    rw [List.mem_singleton] at hr
    subst hr
    exact Or.inl ⟨markdown, rfl, rfl⟩
  | error e =>
    by_cases hskip : format.skipUnprocessableFiles = true
    · rw [parse_records_error_skip lib format fh rf e hread hskip] at h
      injection h with h
      subst h
      rw [List.mem_singleton] at hr
      subst hr
      exact Or.inr ⟨rfl, recordParseErrorStr e, rfl⟩
    · rw [parse_records_error_noskip lib format fh rf e hread
        (Bool.not_eq_true _ ▸ hskip)] at h
      cases h

/-- C9 witness: the record yielded for the Markdown fixture has non-null
content and a null error. -/
theorem C9_witness :
    mdRecordW.content = some ("hello") ∧ mdRecordW.parse_error = none := by
  have h := C9_content_error_exclusive libMdW { skipUnprocessableFiles := false }
    fhPlainW rfPlainW [mdRecordW] mdRecordW rfl (List.mem_singleton_self mdRecordW)
  rcases h with ⟨s, hc, hp⟩ | ⟨hc, hp⟩
  · exact ⟨rfl, hp⟩
  · simp [mdRecordW] at hc

/-- C10: every record parse_records yields for a file has its document_key
equal to that file URI, and at most one record is yielded per file. -/
theorem C10_document_key (lib : UnstructuredLib) (format : UnstructuredFormat)
    (fh : FileStream) (rf : RemoteFile) (records : List OutputRecord)
    (h : parse_records lib format fh rf = Except.ok records) :
    (∀ r, r ∈ records → r.document_key = rf.uri) ∧ records.length ≤ 1 := by
  cases hread : _read_file lib fh rf with
  | ok markdown =>
    rw [parse_records_ok lib format fh rf markdown hread] at h
    injection h with h
    subst h
    refine ⟨fun r hr => ?_, by simp⟩
    rw [List.mem_singleton] at hr
    subst hr
    rfl
  | error e =>
    by_cases hskip : format.skipUnprocessableFiles = true
    · rw [parse_records_error_skip lib format fh rf e hread hskip] at h
      injection h with h
      subst h
      refine ⟨fun r hr => ?_, by simp⟩
      rw [List.mem_singleton] at hr
      subst hr
      rfl
    · rw [parse_records_error_noskip lib format fh rf e hread
        (Bool.not_eq_true _ ▸ hskip)] at h
      cases h

/-- C10 witness: the Markdown fixture record carries the file URI and the
yielded list has at most one element. -/
theorem C10_witness :
    mdRecordW.document_key = rfPlainW.uri ∧ ([mdRecordW] : List OutputRecord).length ≤ 1 := by
  have h := C10_document_key libMdW { skipUnprocessableFiles := false }
    fhPlainW rfPlainW [mdRecordW] rfl
  exact ⟨h.1 mdRecordW (List.mem_singleton_self mdRecordW), h.2⟩
